import Mathlib

/-!
Verification development for the credential lifecycle subsystem of
`adk-python`: the scoped in-memory credential store, the OAuth2 session
helper, the service-account credential exchanger, and the authenticated
tool wrappers.  Python dictionaries are embedded as association lists with
last-write-wins insertion, Python `Optional` values as `Option`, Python
exceptions as `Except`, and Python truthiness (`if not x`) is modelled
explicitly where it matters (`None` and the empty string are falsy;
pydantic model instances are truthy).
-/

namespace Adk

/-! ### Python dict model -/

/-- Python `dict.get(key)`: first binding for `key`, `none` when absent. -/
def dictGet {α : Type} : List (String × α) → String → Option α
  | [], _ => none
  | e :: rest, key => if e.1 = key then some e.2 else dictGet rest key

/-- Python `dict[key] = value`: replace the binding in place, or append it. -/
def dictSet {α : Type} : List (String × α) → String → α → List (String × α)
  | [], key, v => [(key, v)]
  | e :: rest, key, v =>
      if e.1 = key then (key, v) :: rest else e :: dictSet rest key v

theorem dictGet_dictSet_same {α : Type} (l : List (String × α)) (k : String) (v : α) :
    dictGet (dictSet l k v) k = some v := by
  induction l with
  | nil => simp [dictGet, dictSet]
  | cons hd tl ih =>
      by_cases h : hd.1 = k <;> simp [dictGet, dictSet, h, ih]

theorem dictGet_dictSet_ne {α : Type} (l : List (String × α)) (k k' : String) (v : α)
    (h : k' ≠ k) : dictGet (dictSet l k v) k' = dictGet l k' := by
  have hks : ¬k = k' := fun hh => h hh.symm
  induction l with
  | nil => simp [dictGet, dictSet, hks]
  | cons hd tl ih =>
      by_cases hk : hd.1 = k
      · have hk' : ¬hd.1 = k' := fun hh => hks (hk.symm.trans hh)
        simp [dictGet, dictSet, hk, hk', hks]
      · simp [dictGet, dictSet, hk, ih]

theorem dictSet_dictSet_same {α : Type} (l : List (String × α)) (k : String) (v w : α) :
    dictSet (dictSet l k v) k w = dictSet l k w := by
  induction l with
  | nil => simp [dictSet]
  | cons hd tl ih =>
      by_cases h : hd.1 = k <;> simp [dictSet, h, ih]

/-! ### Credential and scheme data model

`AuthCredential` and its payloads are defined in `auth_credential.py`
(pydantic models); the fields embedded here are the ones the verified
components read, with the shapes used by the unit tests. -/

/-- The `AuthCredentialTypes` enumeration from `auth_credential.py`. -/
inductive AuthCredentialTypes
  | apiKey
  | http
  | oauth2
  | serviceAccount
  | openIdConnect
deriving DecidableEq, Repr

/-- The `OAuth2Auth` payload: the OAuth2-specific fields of a credential. -/
structure OAuth2Auth where
  client_id : Option String
  client_secret : Option String
  redirect_uri : Option String
  state : Option String
  access_token : Option String
  refresh_token : Option String
  expires_at : Option Int
  expires_in : Option Int
deriving DecidableEq, Repr

/-- The `ServiceAccountCredential` document: the embedded private-key document. -/
structure ServiceAccountCredential where
  type_ : String
  project_id : String
  private_key_id : String
  private_key : String
  client_email : String
  client_id : String
  token_uri : String
deriving DecidableEq, Repr

/-- The `ServiceAccount` payload: either an embedded key document or the
use-default-credentials flag, plus the requested scopes. -/
structure ServiceAccount where
  service_account_credential : Option ServiceAccountCredential
  scopes : List String
  use_default_credential : Bool
deriving DecidableEq, Repr

/-- An `AuthCredential`: tagged union over the credential payloads. -/
structure AuthCredential where
  auth_type : AuthCredentialTypes
  api_key : Option String
  oauth2 : Option OAuth2Auth
  service_account : Option ServiceAccount
  google_oauth2_json : Option String
deriving DecidableEq, Repr

/-- The `OAuthFlowAuthorizationCode` descriptor (fastapi openapi model): the static
authorization-code flow descriptor; `scopes` maps scope name to its
description. -/
structure OAuthFlowAuthorizationCode where
  authorizationUrl : String
  tokenUrl : String
  scopes : List (String × String)
deriving DecidableEq, Repr

/-- The `OAuthFlows` record (fastapi openapi model), restricted to the flow the
helper reads. -/
structure OAuthFlows where
  authorizationCode : Option OAuthFlowAuthorizationCode
deriving DecidableEq, Repr

/-- An `AuthScheme`: the scheme variants dispatched on by
`isinstance` checks in the source.  `openIdConnectWithConfig` carries the
endpoints and scopes taken from the provider's discovery metadata
(`OpenIdConnectWithConfig` in `auth_schemes.py`); `oauth2` carries the
static `flows` descriptor (`fastapi.openapi.models.OAuth2`). -/
inductive AuthScheme
  | openIdConnectWithConfig (authorization_endpoint : String)
      (token_endpoint : String) (scopes : List String)
  | oauth2 (flows : OAuthFlows)
  | apiKey (name : String)
  | httpBearer
deriving DecidableEq, Repr

/-- Python truthiness of an `Optional[str]`: `None` and `""` are falsy. -/
def truthyStr (o : Option String) : Bool :=
  match o with
  | none => false
  | some s => !s.isEmpty

/-! ### OAuth2 session helper (`oauth2_session_helper.py`) -/

/-- The arguments `create_oauth2_session` passes to the `OAuth2Session`
constructor. -/
structure OAuth2Session where
  client_id : Option String
  client_secret : Option String
  scope : String
  redirect_uri : Option String
  state : Option String
deriving DecidableEq, Repr

/-- The credential-validation half of `create_oauth2_session`
(`oauth2_session_helper.py` lines 79-96): decline with `(None, None)`
unless the credential exists, has an `oauth2` payload, and has truthy
`client_id` and `client_secret`; otherwise build the session around the
resolved token endpoint and scope list. -/
def sessionFromCredential (token_endpoint : String) (scopes : List String)
    (auth_credential : Option AuthCredential) :
    Option OAuth2Session × Option String :=
  match auth_credential with
  | none => (none, none)
  | some c =>
      match c.oauth2 with
      | none => (none, none)
      | some o =>
          if truthyStr o.client_id && truthyStr o.client_secret then
            (some { client_id := o.client_id
                    client_secret := o.client_secret
                    scope := String.intercalate " " scopes
                    redirect_uri := o.redirect_uri
                    state := o.state },
             some token_endpoint)
          else (none, none)

/-- Embeds `OAuth2SessionHelper.create_oauth2_session`: resolve the token
endpoint and scopes from the scheme, then validate the credential and
build the session.  For `OpenIdConnectWithConfig` the endpoint and scopes
come from the discovery-metadata fields of the scheme (the source's
`hasattr(auth_scheme, "token_endpoint")` guard is always satisfied there,
since the pydantic model declares the field); for `OAuth2` they come from
`flows.authorizationCode` (declining when the flow is absent or its
`tokenUrl` is falsy); every other variant declines with `(None, None)`. -/
def create_oauth2_session (auth_scheme : AuthScheme)
    (auth_credential : Option AuthCredential) :
    Option OAuth2Session × Option String :=
  match auth_scheme with
  | .openIdConnectWithConfig _ token_endpoint scopes =>
      sessionFromCredential token_endpoint scopes auth_credential
  | .oauth2 flows =>
      match flows.authorizationCode with
      | none => (none, none)
      | some ac =>
          if ac.tokenUrl.isEmpty then (none, none)
          else
            sessionFromCredential ac.tokenUrl (ac.scopes.map Prod.fst)
              auth_credential
  | .apiKey _ => (none, none)
  | .httpBearer => (none, none)

/-- An OAuth2 token response (`OAuth2Token` dict); a `none` field models
a key absent from the response, so `tokens.get(k)` is the field itself. -/
structure OAuth2Token where
  access_token : Option String
  refresh_token : Option String
  expires_at : Option Int
  expires_in : Option Int
deriving DecidableEq, Repr

/-- Embeds `OAuth2SessionHelper.update_credential_with_tokens`
(`oauth2_session_helper.py` lines 98-111), as a pure function on the
credential's `oauth2` payload: every token field is overwritten with
`tokens.get(...)`; the expiry fields additionally go through Python's
`int(x) if x else None`, under which the integer `0` is falsy. -/
def update_credential_with_tokens (o : OAuth2Auth) (tokens : OAuth2Token) :
    OAuth2Auth :=
  { o with
    access_token := tokens.access_token
    refresh_token := tokens.refresh_token
    expires_at :=
      match tokens.expires_at with
      | some v => if v = 0 then none else some v
      | none => none
    expires_in :=
      match tokens.expires_in with
      | some v => if v = 0 then none else some v
      | none => none }

/-! ### In-memory credential service (`in_memory_credential_service.py`) -/

/-- The part of `ToolContext` the credential service reads:
`tool_context._invocation_context.app_name` and `.user_id`. -/
structure ToolContext where
  app_name : String
  user_id : String
deriving DecidableEq, Repr

/-- An `AuthConfig` (`auth_tool.py`): the scheme, the raw credential supplied
by the tool author, the most recent usable credential, and the derived
`credential_key` string (treated as an abstract key). -/
structure AuthConfig where
  auth_scheme : Option AuthScheme
  raw_auth_credential : Option AuthCredential
  exchanged_auth_credential : Option AuthCredential
  credential_key : String
deriving DecidableEq, Repr

/-- The innermost dict of the store: `credential_key` to the stored value,
which is itself an `Optional[AuthCredential]` (what was in
`exchanged_auth_credential` at save time). -/
abbrev UserStore : Type := List (String × Option AuthCredential)

/-- The per-app dict: `user_id` to that user's credential dict. -/
abbrev AppStore : Type := List (String × UserStore)

/-- The dict `InMemoryCredentialService._store`: `app_name` to per-app dict. -/
abbrev Store : Type := List (String × AppStore)

/-- Embeds `InMemoryCredentialService._get_storage_for_current_context`: create
the nested dicts for the context's `app_name` and `user_id` when absent,
and return (the store after that mutation, the inner dict). -/
def getStorageForCurrentContext (store : Store) (tool_context : ToolContext) :
    Store × UserStore :=
  let appStore := (dictGet store tool_context.app_name).getD []
  let userStore := (dictGet appStore tool_context.user_id).getD []
  (dictSet store tool_context.app_name
      (dictSet appStore tool_context.user_id userStore),
   userStore)

/-- Embeds `InMemoryCredentialService.load_credential`: `storage.get(key)` on the
inner dict.  The stored values are optional, and Python's `.get` returns
`None` both for a missing key and for a stored `None`, hence the
`Option.join`.  Returns (the store after the helper's mutation, the
loaded credential); the function is total — an unknown app, user or key
is a miss, never an error. -/
def load_credential (store : Store) (auth_config : AuthConfig)
    (tool_context : ToolContext) : Store × Option AuthCredential :=
  let r := getStorageForCurrentContext store tool_context
  (r.1, Option.join (dictGet r.2 auth_config.credential_key))

/-- Embeds `InMemoryCredentialService.save_credential`:
`storage[key] = auth_config.exchanged_auth_credential` — the exchanged
credential, never `raw_auth_credential`, is what gets stored.  The
assignment to the aliased inner dict is modelled by writing the updated
inner dict back along the same `app_name`/`user_id` path. -/
def save_credential (store : Store) (auth_config : AuthConfig)
    (tool_context : ToolContext) : Store :=
  let r := getStorageForCurrentContext store tool_context
  let storage := dictSet r.2 auth_config.credential_key
      auth_config.exchanged_auth_credential
  let appStore := (dictGet r.1 tool_context.app_name).getD []
  dictSet r.1 tool_context.app_name
      (dictSet appStore tool_context.user_id storage)

/-- The value visible at one scope key of the store. -/
def peek (s : Store) (app user key : String) : Option AuthCredential :=
  Option.join
    (dictGet ((dictGet ((dictGet s app).getD []) user).getD []) key)

theorem load_credential_eq_peek (s : Store) (cfg : AuthConfig) (ctx : ToolContext) :
    (load_credential s cfg ctx).2 =
      peek s ctx.app_name ctx.user_id cfg.credential_key := rfl

theorem save_credential_eq (s : Store) (cfg : AuthConfig) (ctx : ToolContext) :
    save_credential s cfg ctx =
      dictSet s ctx.app_name
        (dictSet ((dictGet s ctx.app_name).getD []) ctx.user_id
          (dictSet ((dictGet ((dictGet s ctx.app_name).getD []) ctx.user_id).getD [])
            cfg.credential_key cfg.exchanged_auth_credential)) := by
  unfold save_credential getStorageForCurrentContext
  simp only [dictGet_dictSet_same, dictSet_dictSet_same, Option.getD_some]

/-- Effect of one save on the value at any scope key: the written triple
sees the exchanged credential, every other triple is untouched. -/
theorem peek_save (s : Store) (cfg : AuthConfig) (ctx : ToolContext)
    (app user key : String) :
    peek (save_credential s cfg ctx) app user key =
      if ctx.app_name = app ∧ ctx.user_id = user ∧ cfg.credential_key = key
      then cfg.exchanged_auth_credential
      else peek s app user key := by
  rw [save_credential_eq]
  by_cases ha : ctx.app_name = app
  · subst ha
    unfold peek
    rw [dictGet_dictSet_same]
    by_cases hu : ctx.user_id = user
    · subst hu
      rw [Option.getD_some, dictGet_dictSet_same, Option.getD_some]
      by_cases hk : cfg.credential_key = key
      · subst hk
        rw [dictGet_dictSet_same]
        simp
      · rw [dictGet_dictSet_ne _ _ _ _ (fun hh => hk hh.symm)]
        simp [hk]
    · rw [Option.getD_some, dictGet_dictSet_ne _ _ _ _ (fun hh => hu hh.symm)]
      simp [hu]
  · unfold peek
    rw [dictGet_dictSet_ne _ _ _ _ (fun hh => ha hh.symm)]
    simp [ha]

/-- A sequence of `save_credential` calls starting from the empty store. -/
def runSaves (ops : List (AuthConfig × ToolContext)) : Store :=
  ops.foldl (fun s op => save_credential s op.1 op.2) []

/-! ### Authenticated tool wrappers (`base_authenticated_tool.py`,
`authenticated_function_tool.py`) -/

/-- A tool return value: the pending sentinel is an ordinary string value,
other results are opaque and distinguished by a tag. -/
inductive ToolVal
  | str (s : String)
  | other (tag : Nat)
deriving DecidableEq, Repr

/-- A value in the `args` dict passed to a tool: either a plain tool value
or an injected `AuthCredential` (the `args_to_call["credential"]`
assignment stores a credential object). -/
inductive ArgVal
  | val (v : ToolVal)
  | cred (c : Option AuthCredential)
deriving DecidableEq, Repr

/-- The `args` dict of a tool call. -/
abbrev Args : Type := List (String × ArgVal)

deriving instance DecidableEq for Except

/-- Errors a `CredentialManager.load_auth_credential` call can raise
(refresh or exchange failures propagate out of it as exceptions). -/
inductive CredErr
  | refreshError (msg : String)
  | exchangeError (msg : String)
deriving DecidableEq, Repr

/-- The wrapper-visible behaviour of a `CredentialManager`:
`load_auth_credential` either raises (a refresh/exchange failure) or
returns an optional usable credential.  The manager's internals are
behind this interface; the wrapper code under verification only awaits
this outcome. -/
structure CredentialManagerModel where
  loadOutcome : Except CredErr (Option AuthCredential)
deriving DecidableEq, Repr

/-- Embeds the `BaseAuthenticatedTool.__init__` / `AuthenticatedFunctionTool.__init__`
manager construction: `if auth_config and auth_config.auth_scheme:` build
a `CredentialManager`, else leave it `None` (an `AuthConfig` instance is
truthy; its `auth_scheme` is truthy exactly when not `None`). -/
def mkCredentialsManager (auth_config : Option AuthConfig)
    (loadOutcome : Except CredErr (Option AuthCredential)) :
    Option CredentialManagerModel :=
  match auth_config with
  | some cfg =>
      if cfg.auth_scheme.isSome then some { loadOutcome := loadOutcome }
      else none
  | none => none

/-- Python's `x or default` on an `Optional[str]`: `None` and the empty
string fall through to the default. -/
def pyOr (configured : Option String) (default : String) : String :=
  match configured with
  | some s => if s.isEmpty then default else s
  | none => default

/-- The observable outcome of one `run_async` call: the returned value
plus how many times the tool body (`_run_async_impl`), the manager's
`load_auth_credential`, and `request_credential` were invoked. -/
structure RunResult where
  value : ToolVal
  bodyCalls : Nat
  loadCalls : Nat
  requestCredentialCalls : Nat
deriving DecidableEq, Repr

/-- Embeds `BaseAuthenticatedTool.run_async` (identical control flow in
`AuthenticatedFunctionTool.run_async`): with no manager, call the body
with `credential = None`; otherwise await `load_auth_credential` (a raised
error propagates — there is no `try`/`except`), and when it returns no
credential, call `request_credential` and return
`self._request_credential_response or "Pending User Authorization."`
without calling the body. -/
def run_async (credentials_manager : Option CredentialManagerModel)
    (request_credential_response : Option String)
    (impl : Args → Option AuthCredential → ToolVal)
    (args : Args) : Except CredErr RunResult :=
  match credentials_manager with
  | none => .ok { value := impl args none, bodyCalls := 1, loadCalls := 0,
                  requestCredentialCalls := 0 }
  | some m =>
      match m.loadOutcome with
      | .error e => .error e
      | .ok none =>
          .ok { value := .str (pyOr request_credential_response
                    "Pending User Authorization."),
                bodyCalls := 0, loadCalls := 1, requestCredentialCalls := 1 }
      | .ok (some credential) =>
          .ok { value := impl args (some credential), bodyCalls := 1,
                loadCalls := 1, requestCredentialCalls := 0 }

/-- Embeds the `AuthenticatedFunctionTool._run_async_impl` argument construction:
`args_to_call = args.copy()`, then inject the credential only when the
wrapped function's signature declares a parameter named `"credential"`;
the copy leaves the caller's dict unmodified. -/
def functionToolArgsToCall (params : List String) (args : Args)
    (credential : Option AuthCredential) : Args :=
  let args_to_call := args
  if params.contains "credential" then
    dictSet args_to_call "credential" (.cred credential)
  else args_to_call

/-! ### Service-account credential exchanger

Modelled from the spec: `service_account_credential_exchanger.py` is not
among the provided sources (only its unit tests are), so
`ServiceAccountCredentialExchanger.exchange` is reconstructed from spec
§4.3 steps 1-4 and the error messages asserted by
`test_service_account_credential_exchanger.py`.  The token acquisition
(steps 2-3) is abstracted as an oracle `tokenCall`, and the result counts
how many times it was consulted. -/

/-- The distinct exchange error kinds, by their asserted messages. -/
inductive ExchangeErr
  | credentialCannotBeNone
  | notServiceAccountCredential
  | serviceAccountCredentialsMissing
  | serviceAccountCredentialsInvalid
  | failedToExchangeToken (cause : String)
deriving DecidableEq, Repr

/-- Modelled from the spec: `ServiceAccountCredentialExchanger.exchange`.
Precondition checks, in order: the credential must exist, be tagged
service-account, carry a `service_account` sub-object, and have either
embedded key material or `use_default_credential`; each failure is its
own error kind, raised before any token call.  Past the checks, the
token acquisition runs once; success wraps the serialized token state as
an OAuth2-tagged credential, failure wraps the cause. -/
def service_account_exchange (credential : Option AuthCredential)
    (tokenCall : Except String String) :
    Except ExchangeErr AuthCredential × Nat :=
  match credential with
  | none => (.error .credentialCannotBeNone, 0)
  | some c =>
      if c.auth_type ≠ .serviceAccount then
        (.error .notServiceAccountCredential, 0)
      else
        match c.service_account with
        | none => (.error .serviceAccountCredentialsMissing, 0)
        | some sa =>
            if sa.service_account_credential.isNone
                && !sa.use_default_credential then
              (.error .serviceAccountCredentialsInvalid, 0)
            else
              match tokenCall with
              | .ok json =>
                  (.ok { auth_type := .oauth2, api_key := none,
                         oauth2 := none, service_account := none,
                         google_oauth2_json := some json }, 1)
              | .error cause =>
                  (.error (.failedToExchangeToken cause), 1)

/-! ### Concrete fixtures used by witnesses and counterexamples -/

/-- An OAuth2 payload holding a refresh token. -/
def oauthPayloadWithRefreshToken : OAuth2Auth :=
  { client_id := some "client-1"
    client_secret := some "secret-1"
    redirect_uri := none
    state := none
    access_token := some "old-access"
    refresh_token := some "refresh-0"
    expires_at := none
    expires_in := none }

/-- A token response that omits the `refresh_token` field. -/
def tokenResponseWithoutRefreshToken : OAuth2Token :=
  { access_token := some "new-access"
    refresh_token := none
    expires_at := none
    expires_in := none }

/-- An OAuth2-tagged credential wrapping `oauthPayloadWithRefreshToken`. -/
def oauthCredential : AuthCredential :=
  { auth_type := .oauth2
    api_key := none
    oauth2 := some oauthPayloadWithRefreshToken
    service_account := none
    google_oauth2_json := none }

/-- An API-key credential (wrong tag for the service-account exchanger). -/
def apiKeyCredential : AuthCredential :=
  { auth_type := .apiKey
    api_key := some "test-key"
    oauth2 := none
    service_account := none
    google_oauth2_json := none }

/-- A service-account credential missing its `service_account` payload. -/
def serviceAccountCredentialMissingPayload : AuthCredential :=
  { auth_type := .serviceAccount
    api_key := none
    oauth2 := none
    service_account := none
    google_oauth2_json := none }

/-- A service-account payload with neither embedded key material nor the
use-default-credentials flag. -/
def invalidServiceAccountPayload : ServiceAccount :=
  { service_account_credential := none
    scopes := ["scope-a"]
    use_default_credential := false }

/-- A service-account credential with neither embedded key material nor
the use-default-credentials flag. -/
def serviceAccountCredentialInvalid : AuthCredential :=
  { auth_type := .serviceAccount
    api_key := none
    oauth2 := none
    service_account := some invalidServiceAccountPayload
    google_oauth2_json := none }

/-- An `AuthConfig` whose exchanged credential is `oauthCredential`. -/
def sampleAuthConfig : AuthConfig :=
  { auth_scheme := none
    raw_auth_credential := none
    exchanged_auth_credential := some oauthCredential
    credential_key := "key-1" }

/-- A tool context for app `app-1`, user `user-1`. -/
def sampleContext : ToolContext := { app_name := "app-1", user_id := "user-1" }

/-- A tool context for a different user of the same app. -/
def otherUserContext : ToolContext := { app_name := "app-1", user_id := "user-2" }

/-! ### Claim theorems -/

/-- C1 counterexample: a credential whose `oauth2.refresh_token` is the
non-empty `"refresh-0"`, updated with a token response that omits
`refresh_token`, does NOT keep its previous refresh token —
`update_credential_with_tokens` overwrites it with `None`. -/
theorem C1_counterexample_refresh_token_dropped :
    oauthPayloadWithRefreshToken.refresh_token = some "refresh-0" ∧
    tokenResponseWithoutRefreshToken.refresh_token = none ∧
    (update_credential_with_tokens oauthPayloadWithRefreshToken
        tokenResponseWithoutRefreshToken).refresh_token ≠
      oauthPayloadWithRefreshToken.refresh_token := by
  refine ⟨rfl, rfl, ?_⟩
  decide

/-- C1 (amended): `update_credential_with_tokens` always overwrites the
credential's `refresh_token` (and `access_token`) with the corresponding
field of the token response; when the response omits `refresh_token`, the
credential's refresh token is therefore set to `None`, not carried over. -/
theorem C1_update_overwrites_tokens (o : OAuth2Auth) (t : OAuth2Token) :
    (update_credential_with_tokens o t).refresh_token = t.refresh_token ∧
    (update_credential_with_tokens o t).access_token = t.access_token := by
  exact ⟨rfl, rfl⟩

/-- C2: store round-trip with scope isolation.  Saving an exchanged
credential `c` under the scope key `(ctx.app_name, ctx.user_id,
cfg.credential_key)` makes `load_credential` return `c` for that key;
and for every context `ctx'` differing in app or user, the save changes
nothing visible under `ctx'` — in particular, starting from the empty
store, nothing is visible under `ctx'` at all. -/
theorem C2_store_roundtrip_and_scope_isolation
    (s : Store) (cfg : AuthConfig) (ctx ctx' : ToolContext) (c : AuthCredential)
    (hc : cfg.exchanged_auth_credential = some c)
    (hne : ctx'.app_name ≠ ctx.app_name ∨ ctx'.user_id ≠ ctx.user_id) :
    (load_credential (save_credential s cfg ctx) cfg ctx).2 = some c ∧
    (∀ cfg' : AuthConfig,
      (load_credential (save_credential s cfg ctx) cfg' ctx').2 =
        (load_credential s cfg' ctx').2) ∧
    (∀ cfg' : AuthConfig,
      (load_credential (save_credential [] cfg ctx) cfg' ctx').2 = none) := by
  have hdiff : ∀ cfg' : AuthConfig,
      ¬(ctx.app_name = ctx'.app_name ∧ ctx.user_id = ctx'.user_id ∧
        cfg.credential_key = cfg'.credential_key) := by
    rintro cfg' ⟨h1, h2, _⟩
    rcases hne with h | h
    · exact h h1.symm
    · exact h h2.symm
  refine ⟨?_, ?_, ?_⟩
  · rw [load_credential_eq_peek, peek_save]
    simp [hc]
  · intro cfg'
    rw [load_credential_eq_peek, load_credential_eq_peek, peek_save]
    simp [hdiff cfg']
  · intro cfg'
    rw [load_credential_eq_peek, peek_save]
    simp [hdiff cfg', peek, dictGet]

/-- C2 witness: a concrete save under `(app-1, user-1, key-1)` is loaded
back intact, invisible to `user-2`, and a save into the empty store
leaves `user-2`'s scope empty. -/
theorem C2_witness :
    (load_credential (save_credential [] sampleAuthConfig sampleContext)
        sampleAuthConfig sampleContext).2 = some oauthCredential ∧
    (load_credential (save_credential [] sampleAuthConfig sampleContext)
        sampleAuthConfig otherUserContext).2 =
      (load_credential [] sampleAuthConfig otherUserContext).2 ∧
    (load_credential (save_credential [] sampleAuthConfig sampleContext)
        sampleAuthConfig otherUserContext).2 = none := by
  have h := C2_store_roundtrip_and_scope_isolation [] sampleAuthConfig
    sampleContext otherUserContext oauthCredential rfl (by decide)
  exact ⟨h.1, h.2.1 sampleAuthConfig, h.2.2 sampleAuthConfig⟩

/-- C3 counterexample: with a configured (but empty) pending message and a
manager that yields no credential, the wrapper returns the default
`"Pending User Authorization."`, not the configured message `""` — the
claim as stated (configured message returned whenever one is configured)
fails on Python's falsy-`or`. -/
theorem C3_counterexample_empty_configured_message :
    run_async (some { loadOutcome := .ok none }) (some "")
        (fun _ _ => ToolVal.other 0) [] =
      .ok { value := .str "Pending User Authorization.", bodyCalls := 0,
            loadCalls := 1, requestCredentialCalls := 1 } ∧
    ToolVal.str "Pending User Authorization." ≠ ToolVal.str "" := by
  refine ⟨rfl, by decide⟩

/-- C3 (amended): when the manager yields no usable credential, the
wrapper returns the configured pending message when a non-empty one is
configured, and the default `"Pending User Authorization."` when none (or
an empty, Python-falsy one) is configured; the tool body is not invoked
(`bodyCalls = 0`) and `request_credential` is called once. -/
theorem C3_pending_path (m : CredentialManagerModel)
    (h : m.loadOutcome = .ok none) (resp : Option String)
    (impl : Args → Option AuthCredential → ToolVal) (args : Args) :
    run_async (some m) resp impl args =
      .ok { value := .str (pyOr resp "Pending User Authorization."),
            bodyCalls := 0, loadCalls := 1, requestCredentialCalls := 1 } ∧
    (∀ s, resp = some s → s.isEmpty = false →
      pyOr resp "Pending User Authorization." = s) ∧
    (resp = none →
      pyOr resp "Pending User Authorization." = "Pending User Authorization.") := by
  refine ⟨?_, ?_, ?_⟩
  · obtain ⟨lo⟩ := m
    have h' : lo = .ok none := h
    subst h'
    rfl
  · rintro s rfl hs
    simp [pyOr, hs]
  · rintro rfl
    rfl

/-- C3 witness: at a concrete manager yielding no credential, a
configured message `"please authorize"` is returned verbatim with the
tool body never called. -/
theorem C3_witness :
    run_async (some { loadOutcome := .ok none }) (some "please authorize")
        (fun _ _ => ToolVal.other 7) [("x", .val (.other 1))] =
      .ok { value := .str (pyOr (some "please authorize")
                "Pending User Authorization."),
            bodyCalls := 0, loadCalls := 1, requestCredentialCalls := 1 } ∧
    pyOr (some "please authorize") "Pending User Authorization." =
      "please authorize" := by
  have h := C3_pending_path { loadOutcome := .ok none } rfl
    (some "please authorize") (fun _ _ => ToolVal.other 7)
    [("x", .val (.other 1))]
  exact ⟨h.1, h.2.1 "please authorize" rfl (by decide)⟩

/-- C4: for a scope key `(ctx.app_name, ctx.user_id, cfg.credential_key)`
never written by any of the saves that built the store, `load_credential`
is a miss (`none`); the function is total, so lookup of an unknown app,
user, or credential key never raises. -/
theorem C4_unknown_scope_key_is_miss
    (ops : List (AuthConfig × ToolContext)) (cfg : AuthConfig)
    (ctx : ToolContext)
    (h : ∀ op ∈ ops, op.2.app_name ≠ ctx.app_name ∨
        op.2.user_id ≠ ctx.user_id ∨
        op.1.credential_key ≠ cfg.credential_key) :
    (load_credential (runSaves ops) cfg ctx).2 = none := by
  rw [load_credential_eq_peek]
  unfold runSaves
  have key : ∀ (rest : List (AuthConfig × ToolContext)) (s : Store),
      (∀ op ∈ rest, op.2.app_name ≠ ctx.app_name ∨
          op.2.user_id ≠ ctx.user_id ∨
          op.1.credential_key ≠ cfg.credential_key) →
      peek s ctx.app_name ctx.user_id cfg.credential_key = none →
      peek (rest.foldl (fun s op => save_credential s op.1 op.2) s)
          ctx.app_name ctx.user_id cfg.credential_key = none := by
    intro rest
    induction rest with
    | nil =>
        intro s _ hs
        simpa using hs
    | cons op tail ih =>
        intro s hall hs
        simp only [List.foldl_cons]
        refine ih _ (fun o ho => hall o (List.mem_cons_of_mem _ ho)) ?_
        rw [peek_save]
        have hne : ¬(op.2.app_name = ctx.app_name ∧
            op.2.user_id = ctx.user_id ∧
            op.1.credential_key = cfg.credential_key) := by
          rintro ⟨h1, h2, h3⟩
          rcases hall op (List.mem_cons_self _ _) with hh | hh | hh
          exacts [hh h1, hh h2, hh h3]
        rw [if_neg hne]
        exact hs
  exact key ops [] h (by simp [peek, dictGet])

/-- C4 witness: after a concrete save under `(app-1, user-1, key-1)`,
loading the same key for `user-2` is a miss. -/
theorem C4_witness :
    (load_credential (runSaves [(sampleAuthConfig, sampleContext)])
        sampleAuthConfig otherUserContext).2 = none :=
  C4_unknown_scope_key_is_miss [(sampleAuthConfig, sampleContext)]
    sampleAuthConfig otherUserContext (by decide)

/-- C5: `create_oauth2_session` resolves the token endpoint and scopes
from the discovery-metadata fields when the scheme is
`OpenIdConnectWithConfig`, and from `flows.authorizationCode` (its
`tokenUrl` and the keys of its `scopes` dict) when the scheme is
`OAuth2`; an `OAuth2` scheme lacking an authorization-code flow or with a
falsy `tokenUrl`, and every other scheme variant, yields `(None, None)`. -/
theorem C5_token_endpoint_resolution :
    (∀ (ae te : String) (ss : List String) (c : AuthCredential)
        (o : OAuth2Auth), c.oauth2 = some o →
        truthyStr o.client_id = true → truthyStr o.client_secret = true →
        create_oauth2_session (.openIdConnectWithConfig ae te ss) (some c) =
          (some { client_id := o.client_id, client_secret := o.client_secret,
                  scope := String.intercalate " " ss,
                  redirect_uri := o.redirect_uri, state := o.state },
           some te)) ∧
    (∀ (ac : OAuthFlowAuthorizationCode) (c : AuthCredential)
        (o : OAuth2Auth), ac.tokenUrl.isEmpty = false → c.oauth2 = some o →
        truthyStr o.client_id = true → truthyStr o.client_secret = true →
        create_oauth2_session (.oauth2 { authorizationCode := some ac })
            (some c) =
          (some { client_id := o.client_id, client_secret := o.client_secret,
                  scope := String.intercalate " " (ac.scopes.map Prod.fst),
                  redirect_uri := o.redirect_uri, state := o.state },
           some ac.tokenUrl)) ∧
    (∀ cred : Option AuthCredential,
        create_oauth2_session (.oauth2 { authorizationCode := none }) cred =
          (none, none)) ∧
    (∀ (ac : OAuthFlowAuthorizationCode) (cred : Option AuthCredential),
        ac.tokenUrl.isEmpty = true →
        create_oauth2_session (.oauth2 { authorizationCode := some ac }) cred =
          (none, none)) ∧
    (∀ (name : String) (cred : Option AuthCredential),
        create_oauth2_session (.apiKey name) cred = (none, none)) ∧
    (∀ cred : Option AuthCredential,
        create_oauth2_session .httpBearer cred = (none, none)) := by
  refine ⟨?_, ?_, ?_, ?_, ?_, ?_⟩
  · intro ae te ss c o hc h1 h2
    simp [create_oauth2_session, sessionFromCredential, hc, h1, h2]
  · intro ac c o hurl hc h1 h2
    simp [create_oauth2_session, sessionFromCredential, hurl, hc, h1, h2]
  · intro cred
    simp [create_oauth2_session]
  · intro ac cred hurl
    simp [create_oauth2_session, hurl]
  · intro name cred
    simp [create_oauth2_session]
  · intro cred
    simp [create_oauth2_session]

/-- C5 witness: a concrete OpenID Connect scheme resolves to its
discovered token endpoint with joined scopes; a concrete API-key scheme
and a flow-less OAuth2 scheme decline with `(None, None)`. -/
theorem C5_witness :
    create_oauth2_session
        (.openIdConnectWithConfig "https://auth" "https://token"
          ["s1", "s2"]) (some oauthCredential) =
      (some { client_id := some "client-1", client_secret := some "secret-1",
              scope := "s1 s2", redirect_uri := none, state := none },
       some "https://token") ∧
    create_oauth2_session (.apiKey "k") (some oauthCredential) =
      (none, none) ∧
    create_oauth2_session (.oauth2 { authorizationCode := none })
        (some oauthCredential) = (none, none) := by
  refine ⟨?_, ?_, ?_⟩
  · exact C5_token_endpoint_resolution.1 "https://auth" "https://token"
      ["s1", "s2"] oauthCredential oauthPayloadWithRefreshToken rfl
      (by decide) (by decide)
  · exact C5_token_endpoint_resolution.2.2.2.2.1 "k" (some oauthCredential)
  · exact C5_token_endpoint_resolution.2.2.1 (some oauthCredential)

/-- C6: a tool constructed with no `AuthConfig`, or with an `AuthConfig`
lacking an auth scheme, gets no credential manager, and `run_async`
invokes the body unconditionally with `credential = None`: no load, no
consent request, and the returned value is the body's result. -/
theorem C6_no_auth_config_no_gating (auth_config : Option AuthConfig)
    (h : auth_config = none ∨
        ∃ cfg, auth_config = some cfg ∧ cfg.auth_scheme = none)
    (outcome : Except CredErr (Option AuthCredential)) (resp : Option String)
    (impl : Args → Option AuthCredential → ToolVal) (args : Args) :
    run_async (mkCredentialsManager auth_config outcome) resp impl args =
      .ok { value := impl args none, bodyCalls := 1, loadCalls := 0,
            requestCredentialCalls := 0 } := by
  have hm : mkCredentialsManager auth_config outcome = none := by
    rcases h with rfl | ⟨cfg, rfl, hs⟩
    · rfl
    · simp [mkCredentialsManager, hs]
  rw [hm]
  rfl

/-- C6 witness: a concrete schemeless `AuthConfig` leaves gating off and
the body's result is returned as-is. -/
theorem C6_witness :
    run_async (mkCredentialsManager (some sampleAuthConfig)
        (.error (.refreshError "boom"))) none
        (fun _ _ => ToolVal.other 42) [] =
      .ok { value := ToolVal.other 42, bodyCalls := 1, loadCalls := 0,
            requestCredentialCalls := 0 } :=
  C6_no_auth_config_no_gating (some sampleAuthConfig)
    (Or.inr ⟨sampleAuthConfig, rfl, rfl⟩) (.error (.refreshError "boom"))
    none (fun _ _ => ToolVal.other 42) []

/-- C7: `AuthenticatedFunctionTool` injects the credential into the call
arguments exactly when the wrapped function's signature declares a
parameter named `"credential"`; when it does not, the arguments passed on
are exactly the caller-supplied args (the caller's dict is copied, never
mutated). -/
theorem C7_credential_injected_iff_declared (params : List String)
    (args : Args) (credential : Option AuthCredential) :
    (params.contains "credential" = true →
      functionToolArgsToCall params args credential =
        dictSet args "credential" (.cred credential) ∧
      dictGet (functionToolArgsToCall params args credential) "credential" =
        some (.cred credential)) ∧
    (params.contains "credential" = false →
      functionToolArgsToCall params args credential = args) := by
  constructor
  · intro h
    have e1 : functionToolArgsToCall params args credential =
        dictSet args "credential" (.cred credential) := by
      simp only [functionToolArgsToCall]
      rw [if_pos h]
    exact ⟨e1, by rw [e1, dictGet_dictSet_same]⟩
  · intro h
    simp only [functionToolArgsToCall]
    rw [if_neg]
    simpa using h

/-- C7 witness: a function declaring only `x` receives exactly the
caller's args with no credential; one declaring `credential` receives the
injected credential. -/
theorem C7_witness :
    functionToolArgsToCall ["x"] [("x", .val (.other 1))]
        (some oauthCredential) = [("x", .val (.other 1))] ∧
    dictGet (functionToolArgsToCall ["x", "credential"]
        [("x", .val (.other 1))] (some oauthCredential)) "credential" =
      some (.cred (some oauthCredential)) := by
  refine ⟨?_, ?_⟩
  · exact (C7_credential_injected_iff_declared ["x"] [("x", .val (.other 1))]
      (some oauthCredential)).2 (by decide)
  · exact ((C7_credential_injected_iff_declared ["x", "credential"]
      [("x", .val (.other 1))] (some oauthCredential)).1 (by decide)).2

/-- C8: the service-account exchanger distinguishes its precondition
failures — wrong credential tag, absent `service_account` payload, and
neither embedded key material nor the use-default flag — as three
pairwise-distinct error kinds, each returned before the token acquisition
is ever consulted (zero token calls). -/
theorem C8_exchange_precondition_errors (c : AuthCredential)
    (tk : Except String String) :
    (c.auth_type ≠ .serviceAccount →
      service_account_exchange (some c) tk =
        (.error .notServiceAccountCredential, 0)) ∧
    (c.auth_type = .serviceAccount → c.service_account = none →
      service_account_exchange (some c) tk =
        (.error .serviceAccountCredentialsMissing, 0)) ∧
    (∀ sa : ServiceAccount, c.auth_type = .serviceAccount →
      c.service_account = some sa → sa.service_account_credential = none →
      sa.use_default_credential = false →
      service_account_exchange (some c) tk =
        (.error .serviceAccountCredentialsInvalid, 0)) ∧
    (ExchangeErr.notServiceAccountCredential ≠
        ExchangeErr.serviceAccountCredentialsMissing ∧
      ExchangeErr.notServiceAccountCredential ≠
        ExchangeErr.serviceAccountCredentialsInvalid ∧
      ExchangeErr.serviceAccountCredentialsMissing ≠
        ExchangeErr.serviceAccountCredentialsInvalid) := by
  refine ⟨?_, ?_, ?_, by decide, by decide, by decide⟩
  · intro h
    simp [service_account_exchange, h]
  · intro h1 h2
    simp [service_account_exchange, h1, h2]
  · intro sa h1 h2 h3 h4
    simp [service_account_exchange, h1, h2, h3, h4]

/-- C8 witness: the three concrete failing credentials from the unit
tests produce the three distinct errors, with zero token calls each. -/
theorem C8_witness :
    service_account_exchange (some apiKeyCredential) (.ok "token-json") =
      (.error .notServiceAccountCredential, 0) ∧
    service_account_exchange (some serviceAccountCredentialMissingPayload)
        (.ok "token-json") = (.error .serviceAccountCredentialsMissing, 0) ∧
    service_account_exchange (some serviceAccountCredentialInvalid)
        (.ok "token-json") = (.error .serviceAccountCredentialsInvalid, 0) := by
  refine ⟨?_, ?_, ?_⟩
  · exact (C8_exchange_precondition_errors apiKeyCredential
      (.ok "token-json")).1 (by decide)
  · exact (C8_exchange_precondition_errors
      serviceAccountCredentialMissingPayload (.ok "token-json")).2.1 rfl rfl
  · exact (C8_exchange_precondition_errors serviceAccountCredentialInvalid
      (.ok "token-json")).2.2.1 invalidServiceAccountPayload rfl rfl rfl rfl

/-- C9: when the manager's `load_auth_credential` raises (a refresh or
exchange failure), the wrapper's `run_async` propagates exactly that
error and never returns an ok result — in particular never the pending
sentinel — so hard failure and pending authorization are observably
distinct. -/
theorem C9_failure_propagates_not_pending (m : CredentialManagerModel)
    (e : CredErr) (h : m.loadOutcome = .error e) (resp : Option String)
    (impl : Args → Option AuthCredential → ToolVal) (args : Args) :
    run_async (some m) resp impl args = .error e ∧
    ∀ r : RunResult, run_async (some m) resp impl args ≠ .ok r := by
  have h1 : run_async (some m) resp impl args = .error e := by
    obtain ⟨lo⟩ := m
    have h' : lo = .error e := h
    subst h'
    rfl
  refine ⟨h1, fun r hr => ?_⟩
  rw [h1] at hr
  exact Except.noConfusion hr

/-- C9 witness: a concrete refresh failure propagates as that error. -/
theorem C9_witness :
    run_async (some { loadOutcome := .error (.refreshError "expired") })
        (some "msg") (fun _ _ => ToolVal.other 0) [] =
      .error (.refreshError "expired") :=
  (C9_failure_propagates_not_pending
    { loadOutcome := .error (.refreshError "expired") }
    (.refreshError "expired") rfl (some "msg")
    (fun _ _ => ToolVal.other 0) []).1

/-- C10: `save_credential` stores the config's
`exchanged_auth_credential` (loading the written key back returns exactly
it — the raw credential plays no role), and when that field is `None` at
save time the subsequent load returns `None`, indistinguishable from a
key that was never written (the empty store). -/
theorem C10_save_stores_exchanged_credential (s : Store) (cfg : AuthConfig)
    (ctx : ToolContext) :
    (load_credential (save_credential s cfg ctx) cfg ctx).2 =
      cfg.exchanged_auth_credential ∧
    (cfg.exchanged_auth_credential = none →
      (load_credential (save_credential s cfg ctx) cfg ctx).2 =
        (load_credential ([] : Store) cfg ctx).2) := by
  constructor
  · rw [load_credential_eq_peek, peek_save]
    simp
  · intro h
    rw [load_credential_eq_peek, peek_save]
    simp [h, load_credential_eq_peek, peek, dictGet]

/-- C10 witness: saving a config whose exchanged credential is `None`
makes the subsequent load a miss, equal to loading from the empty store. -/
theorem C10_witness :
    (load_credential (save_credential []
        { sampleAuthConfig with exchanged_auth_credential := none }
        sampleContext)
      { sampleAuthConfig with exchanged_auth_credential := none }
      sampleContext).2 =
      (load_credential ([] : Store)
        { sampleAuthConfig with exchanged_auth_credential := none }
        sampleContext).2 :=
  (C10_save_stores_exchanged_credential []
    { sampleAuthConfig with exchanged_auth_credential := none }
    sampleContext).2 rfl

end Adk
